import Mathlib

/-!
Verification development for `ooni/utils/onion.py`: a shallow embedding of
the circuit-build controller (`CustomCircuit`), the process-start helper
(`start_tor`, `write_torrc`, `delete_files_or_dirs`) and the
`singleton_semaphore` guard, with theorems about the behaviour that the
design document ascribes to them.
-/

set_option maxRecDepth 4000

namespace Onion

/-- Relays are opaque identifiers (`onion.py` treats them as values coming
from the daemon's router registry). -/
abbrev Relay := Nat

/-- A circuit as seen by the listener callbacks: an identifier and a purpose
string (`circuit.id`, `circuit.purpose` in `onion.py`). -/
structure Circuit where
  id : Nat
  purpose : String
  deriving DecidableEq, Repr

/-- Exceptions that the controller code can raise: the `assert len(path) >= 3`
failure in `request_circuit_build` (the design document calls it
`InvalidPath`), the `IndexError` raised by `list.pop()` on an empty list or by
`random.choice` on an empty sequence, and the explicit
`raise Exception("Expected to find circuit.")` in `circuit_failed`. -/
inductive OnionError
  | invalidPath
  | indexErr
  | expectedCircuit
  deriving DecidableEq, Repr

/-- State visible to `CustomCircuit`: its own `waiting_circuits` list of
`(circuit id, deferred)` pairs (deferreds are modelled as opaque numeric
handles), and — modelled from the spec: `self.state.relays`,
`self.state.relays_remaining()`, `self.state.entry_guards.values()` and
`self.state.routers.values()` live on the external `TorState` object, which is
described by the design document as a caller-seeded relay pool drained by
`pop` plus registries of entry guards and general relays.  `pool` is the
relay pool (a Python list popped from its end), `entry_guards` and `routers`
are the value lists of the two registries. -/
structure CtrlState where
  waiting : List (Nat × Nat)
  pool : List Relay
  entry_guards : List Relay
  routers : List Relay
  deriving DecidableEq, Repr

/-- A `state.build_circuit(path)` command issued to the session, together
with the deferred that `AppendWaiting` will register for the resulting
circuit. -/
structure BuildCmd where
  path : List Relay
  d : Nat
  deriving DecidableEq, Repr

/-- Result of running one controller operation: the new controller state, the
remaining randomness stream, the `build_circuit` commands issued (in order),
the deferreds resolved via `d.callback` (in order), and the exception that
escaped, if any. -/
structure HandlerResult where
  st : CtrlState
  seeds : List Nat
  cmds : List BuildCmd
  fired : List Nat
  err : Option OnionError
  deriving DecidableEq, Repr

/-- Python `list.pop()` with no argument: removes and returns the last
element, raising `IndexError` on an empty list. -/
def listPop (l : List Relay) : Except OnionError (Relay × List Relay) :=
  match l.getLast? with
  | none => .error .indexErr
  | some x => .ok (x, l.dropLast)

/-- Python `random.choice(seq)`: raises `IndexError` on an empty sequence,
otherwise returns an element chosen by the next value of the randomness
stream (an arbitrary seed stream models the random number generator). -/
def randomChoice (seeds : List Nat) (l : List Relay) :
    Except OnionError (Relay × List Nat) :=
  match l with
  | [] => .error .indexErr
  | x :: xs =>
    .ok ((x :: xs).get ⟨seeds.headD 0 % (x :: xs).length,
          Nat.mod_lt _ (Nat.succ_pos xs.length)⟩, seeds.tail)

/-- `CustomCircuit.request_circuit_build` (onion.py lines 297-330).  With no
path: if `relays_remaining() > 0`, pop three relays as first, middle and last
hop (popping an exhausted pool raises `IndexError`, with the pops performed
so far already applied to the pool); otherwise draw one entry guard and two
routers at random.  With a caller-supplied path: assert `len(path) >= 3`,
failing with `InvalidPath` before any build command is issued.  On success
exactly one `build_circuit(path)` command is issued, carrying the caller's
deferred for `AppendWaiting` to register. -/
def request_circuit_build (st : CtrlState) (seeds : List Nat) (d : Nat)
    (path? : Option (List Relay)) : HandlerResult :=
  match path? with
  | none =>
    if 0 < st.pool.length then
      match listPop st.pool with
      | .error e => ⟨st, seeds, [], [], some e⟩
      | .ok (first, p1) =>
        match listPop p1 with
        | .error e => ⟨{ st with pool := p1 }, seeds, [], [], some e⟩
        | .ok (middle, p2) =>
          match listPop p2 with
          | .error e => ⟨{ st with pool := p2 }, seeds, [], [], some e⟩
          | .ok (last, p3) =>
            ⟨{ st with pool := p3 }, seeds, [⟨[first, middle, last], d⟩], [], none⟩
    else
      match randomChoice seeds st.entry_guards with
      | .error e => ⟨st, seeds, [], [], some e⟩
      | .ok (first, s1) =>
        match randomChoice s1 st.routers with
        | .error e => ⟨st, s1, [], [], some e⟩
        | .ok (middle, s2) =>
          match randomChoice s2 st.routers with
          | .error e => ⟨st, s2, [], [], some e⟩
          | .ok (last, s3) =>
            ⟨st, s3, [⟨[first, middle, last], d⟩], [], none⟩
  | some p =>
    if 3 ≤ p.length then ⟨st, seeds, [⟨p, d⟩], [], none⟩
    else ⟨st, seeds, [], [], some .invalidPath⟩

/-- The `AppendWaiting` callback (onion.py lines 314-326): once
`build_circuit` acknowledges with a provisional circuit, append
`(circ.id, deferred)` to `waiting_circuits`. -/
def append_waiting (st : CtrlState) (circId d : Nat) : CtrlState :=
  { st with waiting := st.waiting ++ [(circId, d)] }

/-- Popping a non-empty Python list returns its last element and the rest. -/
theorem listPop_concat (l : List Relay) (a : Relay) :
    listPop (l ++ [a]) = .ok (a, l) := by
  unfold listPop
  rw [List.getLast?_concat, List.dropLast_concat]

/-- Claim C3: a caller-supplied path shorter than three hops makes
`request_circuit_build` fail with the `InvalidPath` assertion error; state,
pool and seed stream are untouched and no `build_circuit` command is
issued. -/
theorem request_short_path_invalid
    (st : CtrlState) (seeds : List Nat) (d : Nat) (p : List Relay)
    (hp : p.length < 3) :
    request_circuit_build st seeds d (some p) =
      ⟨st, seeds, [], [], some .invalidPath⟩ := by
  simp only [request_circuit_build]
  rw [if_neg (by omega)]

/-- Claim C3 witness at the empty path. -/
theorem request_short_path_invalid_witness :
    ([] : List Relay).length < 3 ∧
      request_circuit_build ⟨[], [], [], []⟩ [] 0 (some []) =
        ⟨⟨[], [], [], []⟩, [], [], [], some .invalidPath⟩ :=
  ⟨by decide, request_short_path_invalid ⟨[], [], [], []⟩ [] 0 [] (by decide)⟩

/-- Helper: with at least three relays in the pool (written as
`p ++ [c, b, a]`), the no-path build request pops exactly the last three
relays, in pop order, as first, middle and last hop; the seed stream is not
consumed and no fallback selection happens. -/
theorem request_none_big_pool
    (w : List (Nat × Nat)) (p : List Relay) (a b c : Relay)
    (guards routers : List Relay) (seeds : List Nat) (d : Nat) :
    request_circuit_build ⟨w, p ++ [c, b, a], guards, routers⟩ seeds d none =
      ⟨⟨w, p, guards, routers⟩, seeds, [⟨[a, b, c], d⟩], [], none⟩ := by
  have e1 : p ++ [c, b, a] = (p ++ [c, b]) ++ [a] := by simp
  have e2 : p ++ [c, b] = (p ++ [c]) ++ [b] := by simp
  unfold request_circuit_build
  rw [if_pos (by simp)]
  simp only [e1, e2, listPop_concat]

/-- Claim C4: a no-path `requestCircuit` against a pool holding at least
three relays removes exactly three relays from the pool, in pop order, uses
them as first, middle and last hop, performs no random draw (the seed stream
is returned unchanged, for every seed stream), and does not touch the
entry-guard or router registries. -/
theorem request_pool_pops_three
    (w : List (Nat × Nat)) (p : List Relay) (a b c : Relay)
    (guards routers : List Relay) (seeds : List Nat) (d : Nat) :
    request_circuit_build ⟨w, p ++ [c, b, a], guards, routers⟩ seeds d none =
      ⟨⟨w, p, guards, routers⟩, seeds, [⟨[a, b, c], d⟩], [], none⟩ :=
  request_none_big_pool w p a b c guards routers seeds d

/-- Claim C10: a non-empty pool with fewer than three relays passes the
`relays_remaining() > 0` guard, so the code attempts three pops and raises
`IndexError` once the pool is exhausted; no `build_circuit` command is issued
and no random draw happens (the seed stream is untouched), so the random
fallback is not reached. -/
theorem request_small_pool_index_error
    (st : CtrlState) (seeds : List Nat) (d : Nat)
    (h0 : 0 < st.pool.length) (h3 : st.pool.length < 3) :
    (request_circuit_build st seeds d none).err = some .indexErr ∧
      (request_circuit_build st seeds d none).cmds = [] ∧
      (request_circuit_build st seeds d none).seeds = seeds := by
  obtain ⟨w, pool, guards, routers⟩ := st
  match pool, h0, h3 with
  | [x], _, _ =>
    refine ⟨?_, ?_, ?_⟩ <;> rfl
  | [x, y], _, _ =>
    refine ⟨?_, ?_, ?_⟩ <;> rfl
  | x :: y :: z :: t, _, h3 =>
    exfalso
    simp [List.length_cons] at h3
    omega

/-- Claim C10 witness at a single-relay pool. -/
theorem request_small_pool_index_error_witness :
    0 < (⟨[], [5], [], []⟩ : CtrlState).pool.length ∧
      (⟨[], [5], [], []⟩ : CtrlState).pool.length < 3 ∧
      ((request_circuit_build ⟨[], [5], [], []⟩ [] 0 none).err = some .indexErr ∧
        (request_circuit_build ⟨[], [5], [], []⟩ [] 0 none).cmds = [] ∧
        (request_circuit_build ⟨[], [5], [], []⟩ [] 0 none).seeds = []) :=
  ⟨by decide, by decide,
    request_small_pool_index_error ⟨[], [5], [], []⟩ [] 0 (by decide) (by decide)⟩

/-- The loop body of `CustomCircuit.circuit_built` (onion.py lines 268-271),
with CPython `for` semantics made explicit: iteration is by index, and
`list.remove` deletes the first occurrence of the matched pair, so a removal
shifts later elements one position left under the running index.  For every
matching pair the removal from `waiting_circuits` happens strictly before the
`d.callback(circuit)` record is appended to `fired`. -/
def builtLoop (circId : Nat) :
    Nat → List (Nat × Nat) → Nat → List Nat → List (Nat × Nat) × List Nat
  | 0, ws, _, fired => (ws, fired)
  | fuel + 1, ws, i, fired =>
    if h : i < ws.length then
      if (ws.get ⟨i, h⟩).1 = circId then
        builtLoop circId fuel (ws.erase (ws.get ⟨i, h⟩)) (i + 1)
          (fired ++ [(ws.get ⟨i, h⟩).2])
      else
        builtLoop circId fuel ws (i + 1) fired
    else (ws, fired)

/-- `CustomCircuit.circuit_built` (onion.py lines 262-271): ignore circuits
whose purpose is not `GENERAL`; otherwise walk `waiting_circuits`, removing
each entry for this circuit id and then firing its deferred. -/
def circuit_built (st : CtrlState) (seeds : List Nat) (circ : Circuit) :
    HandlerResult :=
  if circ.purpose ≠ "GENERAL" then ⟨st, seeds, [], [], none⟩
  else
    let r := builtLoop circ.id st.waiting.length st.waiting 0 []
    ⟨{ st with waiting := r.1 }, seeds, [], r.2, none⟩

/-- If no element of `waiting_circuits` matches the circuit id, the built
loop is the identity: nothing is removed and nothing is fired. -/
theorem builtLoop_no_match (circId : Nat) :
    ∀ (fuel : Nat) (ws : List (Nat × Nat)) (i : Nat) (fired : List Nat),
      (∀ p ∈ ws, p.1 ≠ circId) →
      builtLoop circId fuel ws i fired = (ws, fired) := by
  intro fuel
  induction fuel with
  | zero => intro ws i fired _; rfl
  | succ n ih =>
    intro ws i fired h
    unfold builtLoop
    split
    · next hlt =>
      rw [if_neg (h (ws.get ⟨i, hlt⟩) (ws.get_mem i hlt))]
      exact ih ws (i + 1) fired h
    · rfl

/-- With a unique entry for the circuit id, the built loop removes exactly
that entry and fires exactly its deferred, once. -/
theorem builtLoop_find (circId d : Nat) :
    ∀ (fuel : Nat) (pre post : List (Nat × Nat)) (i : Nat) (fired : List Nat),
      i ≤ pre.length → pre.length < i + fuel →
      (∀ p ∈ pre, p.1 ≠ circId) → (∀ p ∈ post, p.1 ≠ circId) →
      builtLoop circId fuel (pre ++ (circId, d) :: post) i fired =
        (pre ++ post, fired ++ [d]) := by
  intro fuel
  induction fuel with
  | zero =>
    intro pre post i fired hi hlt _ _
    omega
  | succ n ih =>
    intro pre post i fired hi hlt hpre hpost
    have hbound : i < (pre ++ (circId, d) :: post).length := by
      simp [List.length_append]
      omega
    unfold builtLoop
    rw [dif_pos hbound]
    rcases Nat.lt_or_ge i pre.length with hcase | hcase
    · have hget : (pre ++ (circId, d) :: post).get ⟨i, hbound⟩ =
          pre.get ⟨i, hcase⟩ := by
        rw [List.get_eq_getElem, List.get_eq_getElem, List.getElem_append_left]
      rw [hget, if_neg (hpre _ (pre.get_mem i hcase))]
      exact ih pre post (i + 1) fired hcase (by omega) hpre hpost
    · have hieq : i = pre.length := by omega
      subst hieq
      have hget : (pre ++ (circId, d) :: post).get ⟨pre.length, hbound⟩ =
          (circId, d) := by
        rw [List.get_eq_getElem, List.getElem_append_right (Nat.le_refl _)]
        simp
      rw [hget, if_pos rfl]
      have hnotmem : (circId, d) ∉ pre := by
        intro hmem
        exact hpre _ hmem rfl
      have herase : (pre ++ (circId, d) :: post).erase (circId, d) =
          pre ++ post := by
        rw [List.erase_append_right _ hnotmem, List.erase_cons_head]
      rw [herase]
      refine builtLoop_no_match circId n (pre ++ post) (pre.length + 1)
        (fired ++ [d]) ?_
      intro p hp
      rcases List.mem_append.mp hp with h1 | h1
      · exact hpre p h1
      · exact hpost p h1

/-- Claim C1: when `circuit_built` runs for a general-purpose circuit whose
id has a (unique) entry in `waiting_circuits`, the entry is removed and the
associated deferred fired exactly once, and a second, duplicate `built`
notification for the same id finds no entry, fires nothing and leaves the
table unchanged — so the same future cannot be resolved twice. -/
theorem circuit_built_removes_before_resolve
    (pre post : List (Nat × Nat)) (c d : Nat) (seeds : List Nat)
    (pool guards routers : List Relay)
    (hpre : ∀ p ∈ pre, p.1 ≠ c) (hpost : ∀ p ∈ post, p.1 ≠ c) :
    circuit_built ⟨pre ++ (c, d) :: post, pool, guards, routers⟩ seeds
        ⟨c, "GENERAL"⟩ =
      ⟨⟨pre ++ post, pool, guards, routers⟩, seeds, [], [d], none⟩ ∧
      circuit_built ⟨pre ++ post, pool, guards, routers⟩ seeds
          ⟨c, "GENERAL"⟩ =
        ⟨⟨pre ++ post, pool, guards, routers⟩, seeds, [], [], none⟩ := by
  have hnone : ∀ p ∈ pre ++ post, p.1 ≠ c := by
    intro p hp
    rcases List.mem_append.mp hp with h1 | h1
    · exact hpre p h1
    · exact hpost p h1
  constructor
  · unfold circuit_built
    rw [if_neg (by simp)]
    have := builtLoop_find c d (pre ++ (c, d) :: post).length pre post 0 []
      (Nat.zero_le _) (by simp [List.length_append]; try omega) hpre hpost
    simp only [this, List.nil_append]
  · unfold circuit_built
    rw [if_neg (by simp)]
    have := builtLoop_no_match c (pre ++ post).length (pre ++ post) 0 [] hnone
    simp only [this]

/-- Claim C1 witness: table `[(1,10), (3,30), (2,20)]`, built notification
for circuit 3. -/
theorem circuit_built_removes_before_resolve_witness :
    (∀ p ∈ [((1 : Nat), (10 : Nat))], p.1 ≠ 3) ∧
      (∀ p ∈ [((2 : Nat), (20 : Nat))], p.1 ≠ 3) ∧
      (circuit_built ⟨[(1, 10)] ++ (3, 30) :: [(2, 20)], [], [], []⟩ []
          ⟨3, "GENERAL"⟩ =
        ⟨⟨[(1, 10)] ++ [(2, 20)], [], [], []⟩, [], [], [30], none⟩ ∧
        circuit_built ⟨[(1, 10)] ++ [(2, 20)], [], [], []⟩ [] ⟨3, "GENERAL"⟩ =
          ⟨⟨[(1, 10)] ++ [(2, 20)], [], [], []⟩, [], [], [], none⟩) :=
  ⟨by decide, by decide,
    circuit_built_removes_before_resolve [(1, 10)] [(2, 20)] 3 30 [] [] [] []
      (by decide) (by decide)⟩

/-- `CustomCircuit.waiting_on` (onion.py lines 249-253): is there an entry in
`waiting_circuits` for this circuit id? -/
def waiting_on (st : CtrlState) (circId : Nat) : Bool :=
  st.waiting.any (fun p => p.1 == circId)

/-- The search loop of `circuit_failed` (onion.py lines 277-279): scan
`waiting_circuits` keeping the most recent entry whose circuit id matches, so
the last match wins. -/
def findLastMatch (circId : Nat) (ws : List (Nat × Nat)) : Option (Nat × Nat) :=
  ws.foldl (fun acc p => if p.1 = circId then some p else acc) none

/-- `CustomCircuit.circuit_failed` (onion.py lines 273-285): if no entry is
waiting on this circuit, do nothing.  Otherwise find the (last) matching
entry — the `d is None` branch raises `Exception("Expected to find
circuit.")` — remove it from `waiting_circuits`, and re-issue
`request_circuit_build` for the same deferred with no path, so a fresh path
is selected.  The original deferred is never fired here. -/
def circuit_failed (st : CtrlState) (seeds : List Nat) (circ : Circuit) :
    HandlerResult :=
  if waiting_on st circ.id then
    match findLastMatch circ.id st.waiting with
    | none => ⟨st, seeds, [], [], some .expectedCircuit⟩
    | some (cid, d) =>
      let st' := { st with waiting := st.waiting.erase (cid, d) }
      request_circuit_build st' seeds d none
  else ⟨st, seeds, [], [], none⟩

/-- Folding the last-match search over entries that never match keeps the
accumulator. -/
theorem findLastMatch_fold_no_match (circId : Nat) :
    ∀ (ws : List (Nat × Nat)) (acc : Option (Nat × Nat)),
      (∀ p ∈ ws, p.1 ≠ circId) →
      ws.foldl (fun acc p => if p.1 = circId then some p else acc) acc = acc := by
  intro ws
  induction ws with
  | nil => intro acc _; rfl
  | cons q t ih =>
    intro acc h
    have hq : q.1 ≠ circId := h q (List.mem_cons_self q t)
    simp only [List.foldl_cons, if_neg hq]
    exact ih acc (fun p hp => h p (List.mem_cons_of_mem q hp))

/-- With a unique entry for the circuit id, the last-match search finds it. -/
theorem findLastMatch_unique (c d : Nat) (pre post : List (Nat × Nat))
    (hpre : ∀ p ∈ pre, p.1 ≠ c) (hpost : ∀ p ∈ post, p.1 ≠ c) :
    findLastMatch c (pre ++ (c, d) :: post) = some (c, d) := by
  unfold findLastMatch
  rw [List.foldl_append, findLastMatch_fold_no_match c pre none hpre]
  simp only [List.foldl_cons, if_pos rfl]
  exact findLastMatch_fold_no_match c post (some (c, d)) hpost

/-- A list holding at least three elements splits off its last three. -/
theorem exists_concat3 :
    ∀ (l : List Relay), 3 ≤ l.length → ∃ q z y x, l = q ++ [z, y, x] := by
  intro l
  induction l with
  | nil => intro h; simp at h
  | cons a t ih =>
    intro h
    by_cases h3 : 3 ≤ t.length
    · obtain ⟨q, z, y, x, hq⟩ := ih h3
      exact ⟨a :: q, z, y, x, by rw [hq]; rfl⟩
    · cases t with
      | nil => simp at h
      | cons b t2 =>
        cases t2 with
        | nil => simp at h
        | cons c t3 =>
          cases t3 with
          | nil => exact ⟨[], a, b, c, rfl⟩
          | cons e t4 =>
            exfalso
            apply h3
            simp [List.length_cons]

/-- Fallback selection: with an exhausted pool and non-empty guard and router
registries, the no-path build request draws one entry guard and two routers
and issues exactly one build command. -/
theorem request_none_fallback
    (w : List (Nat × Nat)) (g0 r0 : Relay) (gs rs : List Relay)
    (seeds : List Nat) (d : Nat) :
    ∃ path seeds',
      request_circuit_build ⟨w, [], g0 :: gs, r0 :: rs⟩ seeds d none =
        ⟨⟨w, [], g0 :: gs, r0 :: rs⟩, seeds', [⟨path, d⟩], [], none⟩ := by
  simp only [request_circuit_build, randomChoice]
  exact ⟨_, _, rfl⟩

/-- Claim C2 counterexample: `waiting_circuits = [(7, 70)]` and a pool
holding a single relay.  `circuit_failed` for circuit 7 removes the entry,
but the retry dies popping the exhausted pool: no `build_circuit` command at
all is issued (the claim requires exactly one), and the deferred `70` is left
unresolved with no retry pending. -/
theorem circuit_failed_no_retry_cex :
    (circuit_failed ⟨[(7, 70)], [5], [], []⟩ [] ⟨7, "GENERAL"⟩).cmds = [] ∧
      (circuit_failed ⟨[(7, 70)], [5], [], []⟩ [] ⟨7, "GENERAL"⟩).err =
        some .indexErr ∧
      (circuit_failed ⟨[(7, 70)], [5], [], []⟩ [] ⟨7, "GENERAL"⟩).st.waiting =
        [] ∧
      (circuit_failed ⟨[(7, 70)], [5], [], []⟩ [] ⟨7, "GENERAL"⟩).fired = [] := by
  decide

/-- Claim C2 (amended): when the failed circuit has a unique entry in
`waiting_circuits` and path selection can succeed (pool with at least three
relays, or exhausted pool with non-empty guard and router registries),
`circuit_failed` removes the entry, fires nothing, and issues exactly one
retry build command carrying the original deferred and a freshly selected
path. -/
theorem circuit_failed_retries_once
    (pre post : List (Nat × Nat)) (c d : Nat)
    (pool guards routers : List Relay) (seeds : List Nat) (purp : String)
    (hpre : ∀ p ∈ pre, p.1 ≠ c) (hpost : ∀ p ∈ post, p.1 ≠ c)
    (hsel : 3 ≤ pool.length ∨ (pool = [] ∧ guards ≠ [] ∧ routers ≠ [])) :
    ∃ path seeds' pool',
      circuit_failed ⟨pre ++ (c, d) :: post, pool, guards, routers⟩ seeds
          ⟨c, purp⟩ =
        ⟨⟨pre ++ post, pool', guards, routers⟩, seeds', [⟨path, d⟩], [],
          none⟩ := by
  have hmem : (c, d) ∈ pre ++ (c, d) :: post :=
    List.mem_append.mpr (Or.inr (List.mem_cons_self _ _))
  have hwait : waiting_on ⟨pre ++ (c, d) :: post, pool, guards, routers⟩ c =
      true := by
    unfold waiting_on
    exact List.any_eq_true.mpr ⟨(c, d), hmem, by simp⟩
  have hnotmem : (c, d) ∉ pre := fun hmemp => hpre _ hmemp rfl
  have herase : (pre ++ (c, d) :: post).erase (c, d) = pre ++ post := by
    rw [List.erase_append_right _ hnotmem, List.erase_cons_head]
  unfold circuit_failed
  rw [hwait]
  simp only [findLastMatch_unique c d pre post hpre hpost, if_true]
  simp only [herase]
  rcases hsel with hbig | ⟨hpool, hg, hr⟩
  · obtain ⟨q, z, y, x, hq⟩ := exists_concat3 pool hbig
    subst hq
    exact ⟨[x, y, z], seeds, q,
      request_none_big_pool (pre ++ post) q x y z guards routers seeds d⟩
  · subst hpool
    obtain ⟨g0, gs, hgs⟩ := List.exists_cons_of_ne_nil hg
    obtain ⟨r0, rs, hrs⟩ := List.exists_cons_of_ne_nil hr
    subst hgs
    subst hrs
    obtain ⟨path, seeds', hreq⟩ :=
      request_none_fallback (pre ++ post) g0 r0 gs rs seeds d
    exact ⟨path, seeds', [], hreq⟩

/-- Claim C2 (amended) witness: one waiting entry, pool `[1, 2, 3]`. -/
theorem circuit_failed_retries_once_witness :
    (∀ p ∈ ([] : List (Nat × Nat)), p.1 ≠ 7) ∧
      (3 ≤ ([1, 2, 3] : List Relay).length ∨
        (([1, 2, 3] : List Relay) = [] ∧ ([] : List Relay) ≠ [] ∧
          ([] : List Relay) ≠ [])) ∧
      ∃ path seeds' pool',
        circuit_failed ⟨[] ++ (7, 70) :: [], [1, 2, 3], [], []⟩ []
            ⟨7, "GENERAL"⟩ =
          ⟨⟨[] ++ [], pool', [], []⟩, seeds', [⟨path, 70⟩], [], none⟩ :=
  ⟨by decide, Or.inl (by decide),
    circuit_failed_retries_once [] [] 7 70 [1, 2, 3] [] [] [] "GENERAL"
      (by decide) (by decide) (Or.inl (by decide))⟩

/-- Observable events of the `start_tor` / cleanup code: temp directory and
temp file creation, registration of the `before shutdown` trigger with its
delete list, the spawn attempt, `closeStdin` on a live transport, the
`connected_cb.errback(e)` calls of the two except-branches, and a path
deletion performed by `delete_files_or_dirs`. -/
inductive Ev
  | mkdtemp (p : Nat)
  | mkstemp (p : Nat)
  | registerTrigger (ps : List Nat)
  | spawnAttempt
  | closeStdin
  | errbackConnected
  | deleted (p : Nat)
  deriving DecidableEq, Repr

/-- The deletion events contained in a trace. -/
def deletedEvents (t : List Ev) : List Ev :=
  t.filter fun e =>
    match e with
    | .deleted _ => true
    | _ => false

/-- A `TorConfig` as `write_torrc` uses it: abstract torrc content plus the
`DataDirectory` attribute the function assigns. -/
structure TorConfig where
  content : Nat
  DataDirectory : Option Nat
  deriving DecidableEq, Repr

/-- Result of `write_torrc`: the `(torrc, data_dir, delete_list)` triple the
function returns, the updated config, and the creation events. -/
structure TorrcResult where
  torrc : Nat
  data_dir : Nat
  delete_list : List Nat
  conf : TorConfig
  events : List Ev
  deriving DecidableEq, Repr

/-- `write_torrc` (onion.py lines 53-83): if no data directory is supplied,
create a temporary one with `mkdtemp` and put it on the delete list; set
`conf.DataDirectory`; create the torrc with `mkstemp` inside the data
directory and append it to the delete list; return
`(torrc, data_dir, delete_list)`.  `freshDir` and `freshFile` stand for the
fresh paths the operating system hands to `mkdtemp` and `mkstemp`. -/
def write_torrc (conf : TorConfig) (data_dir : Option Nat)
    (freshDir freshFile : Nat) : TorrcResult :=
  match data_dir with
  | none =>
    { torrc := freshFile, data_dir := freshDir,
      delete_list := [freshDir, freshFile],
      conf := { conf with DataDirectory := some freshDir },
      events := [.mkdtemp freshDir, .mkstemp freshFile] }
  | some dd =>
    { torrc := freshFile, data_dir := dd,
      delete_list := [freshFile],
      conf := { conf with DataDirectory := some dd },
      events := [.mkstemp freshFile] }

/-- Claim C8: `write_torrc` is total (it raises for no input in the model):
it always returns the generated torrc path, the resolved data directory —
creating a fresh temporary one exactly when none is supplied — and the
delete list holding the paths it created for teardown. -/
theorem write_torrc_total_and_creates
    (conf : TorConfig) (data_dir : Option Nat) (freshDir freshFile : Nat) :
    (write_torrc conf data_dir freshDir freshFile).torrc = freshFile ∧
      (write_torrc conf data_dir freshDir freshFile).data_dir =
        data_dir.getD freshDir ∧
      (write_torrc conf data_dir freshDir freshFile).delete_list =
        (match data_dir with
          | none => [freshDir, freshFile]
          | some _ => [freshFile]) ∧
      (write_torrc conf data_dir freshDir freshFile).events =
        (match data_dir with
          | none => [Ev.mkdtemp freshDir, Ev.mkstemp freshFile]
          | some _ => [Ev.mkstemp freshFile]) := by
  cases data_dir <;> simp [write_torrc]

/-- A flat filesystem: plain files and directories, by path. -/
structure FS where
  files : List Nat
  dirs : List Nat
  deriving DecidableEq, Repr

/-- One iteration of `delete_files_or_dirs` (onion.py lines 99-103): try
`unlink`; when that raises `OSError` (the path is not a plain file), fall
back to `rmtree(..., ignore_errors=True)`.  Neither branch raises. -/
def delete_one (fs : FS) (p : Nat) : FS :=
  if p ∈ fs.files then { fs with files := fs.files.filter (fun q => q ≠ p) }
  else { fs with dirs := fs.dirs.filter (fun q => q ≠ p) }

/-- `delete_files_or_dirs` (onion.py lines 85-103): delete every listed path,
suppressing all errors. -/
def delete_files_or_dirs (fs : FS) (l : List Nat) : FS :=
  l.foldl delete_one fs

/-- How the spawn attempt of onion.py lines 207-220 can go: success, the
`RuntimeError` except-branch, or the `NotImplementedError` except-branch
(missing platform process-spawn support). -/
inductive SpawnOutcome
  | ok
  | runtimeError
  | notImplementedError
  deriving DecidableEq, Repr

/-- Failures carried by the `connected_cb` deferred: the two spawn
exceptions errbacked by `start_tor` itself, and a bootstrap failure
delivered by the control-protocol library. -/
inductive TorError
  | runtimeFail
  | notImplementedFail
  | bootstrapFail
  deriving DecidableEq, Repr

/-- Results on the `connected_cb` channel are comparable. -/
instance : DecidableEq (Except TorError Nat) := fun a b =>
  match a, b with
  | .ok x, .ok y =>
    if h : x = y then isTrue (by rw [h]) else isFalse (by simp [h])
  | .ok _, .error _ => isFalse (by simp)
  | .error _, .ok _ => isFalse (by simp)
  | .error x, .error y =>
    if h : x = y then isTrue (by rw [h]) else isFalse (by simp [h])

/-- What one `start_tor` call did: its event trace, the shutdown triggers it
registered (each a delete list), and the outcome of
`yield process_protocol.connected_cb` — `none` models a deferred that never
fires (the call would hang), `some` a settled result. -/
structure StartResult where
  trace : List Ev
  triggers : List (List Nat)
  result : Option (Except TorError Nat)
  deriving DecidableEq, Repr

/-- `start_tor` (onion.py lines 137-236): write the torrc (creating temp
paths), register `delete_files_or_dirs(to_delete)` as a `before shutdown`
reactor trigger, then attempt `reactor.spawnProcess`.  On success, close
stdin and wait on `connected_cb`, whose outcome the external
control-protocol library delivers (`bootstrap`).  On `RuntimeError` or
`NotImplementedError`, errback `connected_cb` with that exception, so the
subsequent `yield` re-raises it to the caller.  No deletion is performed by
this function itself. -/
def start_tor (conf : TorConfig) (data_dir : Option Nat)
    (freshDir freshFile : Nat) (spawn : SpawnOutcome)
    (bootstrap : Option (Except TorError Nat)) : StartResult :=
  let w := write_torrc conf data_dir freshDir freshFile
  match spawn with
  | .ok =>
    { trace := w.events ++ [.registerTrigger w.delete_list, .spawnAttempt,
        .closeStdin],
      triggers := [w.delete_list], result := bootstrap }
  | .runtimeError =>
    { trace := w.events ++ [.registerTrigger w.delete_list, .spawnAttempt,
        .errbackConnected],
      triggers := [w.delete_list],
      result := some (.error .runtimeFail) }
  | .notImplementedError =>
    { trace := w.events ++ [.registerTrigger w.delete_list, .spawnAttempt,
        .errbackConnected],
      triggers := [w.delete_list],
      result := some (.error .notImplementedFail) }

/-- Claim C6 counterexample: a spawn failure with a freshly created data
directory and torrc.  The error is surfaced (`result` is an error), yet the
complete trace of the call contains no deletion event at all: the temporary
paths are still on disk when the caller sees the error, deletion having only
been registered as a shutdown trigger. -/
theorem start_tor_no_delete_before_error_cex :
    (start_tor ⟨0, none⟩ none 1 2 .runtimeError none).result =
        some (.error .runtimeFail) ∧
      (start_tor ⟨0, none⟩ none 1 2 .runtimeError none).trace =
        [.mkdtemp 1, .mkstemp 2, .registerTrigger [1, 2], .spawnAttempt,
          .errbackConnected] ∧
      deletedEvents (start_tor ⟨0, none⟩ none 1 2 .runtimeError none).trace =
        [] := by
  decide

/-- Claim C6 (amended): on any failing `start_tor` invocation with no data
directory supplied — a failing spawn, or a successful spawn whose
`connected_cb` settles with an error before full bootstrap — the error is
surfaced while the call itself performs no deletion; instead it registers
exactly one `before shutdown` trigger holding both created temp paths, and
when that trigger later fires, `delete_files_or_dirs` removes the torrc file
and the temp data directory. -/
theorem start_tor_cleanup_at_shutdown
    (conf : TorConfig) (fd ff : Nat) (spawn : SpawnOutcome)
    (bootstrap : Option (Except TorError Nat))
    (hfail : spawn ≠ .ok ∨ (∃ e, bootstrap = some (.error e)))
    (hne : fd ≠ ff) :
    (∃ e, (start_tor conf none fd ff spawn bootstrap).result =
        some (.error e)) ∧
      deletedEvents (start_tor conf none fd ff spawn bootstrap).trace = [] ∧
      (start_tor conf none fd ff spawn bootstrap).triggers = [[fd, ff]] ∧
      delete_files_or_dirs ⟨[ff], [fd]⟩ [fd, ff] = ⟨[], []⟩ := by
  have hdel : delete_files_or_dirs ⟨[ff], [fd]⟩ [fd, ff] = ⟨[], []⟩ := by
    simp [delete_files_or_dirs, delete_one, List.filter,
      if_neg hne, hne, Ne.symm hne]
  cases spawn with
  | ok =>
    rcases hfail with h | ⟨e, he⟩
    · exact absurd rfl h
    · exact ⟨⟨e, by simp only [start_tor]; exact he⟩,
        by simp [start_tor, write_torrc, deletedEvents, List.filter],
        rfl, hdel⟩
  | runtimeError =>
    exact ⟨⟨.runtimeFail, rfl⟩, by simp [start_tor, write_torrc, deletedEvents,
      List.filter], rfl, hdel⟩
  | notImplementedError =>
    exact ⟨⟨.notImplementedFail, rfl⟩, by simp [start_tor, write_torrc,
      deletedEvents, List.filter], rfl, hdel⟩

/-- Claim C6 (amended) witness: successful spawn whose bootstrap fails, with
fresh paths 1 and 2. -/
theorem start_tor_cleanup_at_shutdown_witness :
    (SpawnOutcome.ok ≠ SpawnOutcome.ok ∨
      (∃ e, (some (.error .bootstrapFail) : Option (Except TorError Nat)) =
        some (.error e))) ∧
      (1 : Nat) ≠ 2 ∧
      ((∃ e, (start_tor ⟨0, none⟩ none 1 2 .ok
            (some (.error .bootstrapFail))).result = some (.error e)) ∧
        deletedEvents (start_tor ⟨0, none⟩ none 1 2 .ok
          (some (.error .bootstrapFail))).trace = [] ∧
        (start_tor ⟨0, none⟩ none 1 2 .ok
          (some (.error .bootstrapFail))).triggers = [[1, 2]] ∧
        delete_files_or_dirs ⟨[2], [1]⟩ [1, 2] = ⟨[], []⟩) :=
  ⟨Or.inr ⟨.bootstrapFail, rfl⟩, by decide,
    start_tor_cleanup_at_shutdown ⟨0, none⟩ 1 2 .ok
      (some (.error .bootstrapFail)) (Or.inr ⟨.bootstrapFail, rfl⟩)
      (by decide)⟩

/-- Claim C7: every failing spawn — `RuntimeError` or the platform's missing
process-spawn support (`NotImplementedError`) — makes `start_tor` terminate
with a settled error on the `connected_cb` channel, distinct per failure
mode; and a bootstrap failure is delivered through that same channel. -/
theorem start_tor_spawn_failure_surfaces
    (conf : TorConfig) (data_dir : Option Nat) (fd ff : Nat)
    (spawn : SpawnOutcome) (bootstrap : Option (Except TorError Nat))
    (hs : spawn ≠ .ok) :
    (start_tor conf data_dir fd ff spawn bootstrap).result =
        some (.error (if spawn = .runtimeError then .runtimeFail
          else .notImplementedFail)) ∧
      (start_tor conf data_dir fd ff .ok
          (some (.error .bootstrapFail))).result =
        some (.error .bootstrapFail) := by
  cases spawn with
  | ok => exact absurd rfl hs
  | runtimeError => exact ⟨rfl, rfl⟩
  | notImplementedError => exact ⟨rfl, rfl⟩

/-- Claim C7 witness at a `NotImplementedError` spawn failure. -/
theorem start_tor_spawn_failure_surfaces_witness :
    (SpawnOutcome.notImplementedError ≠ SpawnOutcome.ok) ∧
      ((start_tor ⟨0, none⟩ none 1 2 .notImplementedError none).result =
          some (.error (if SpawnOutcome.notImplementedError =
            SpawnOutcome.runtimeError then .runtimeFail
            else .notImplementedFail)) ∧
        (start_tor ⟨0, none⟩ none 1 2 .ok
            (some (.error .bootstrapFail))).result =
          some (.error .bootstrapFail)) :=
  ⟨by decide,
    start_tor_spawn_failure_surfaces ⟨0, none⟩ none 1 2 .notImplementedError
      none (by decide)⟩

/-- Session teardown as the code actually installs it: the only teardown
behaviour registered anywhere in onion.py is the `before shutdown` reactor
trigger of `start_tor` lines 204-205, which runs
`delete_files_or_dirs(to_delete)`.  `CustomCircuit` registers no teardown
handling at all, so the controller state is returned unchanged and the list
of deferreds errbacked during teardown (third component) is always empty. -/
def session_teardown (fs : FS) (to_delete : List Nat) (st : CtrlState) :
    FS × CtrlState × List Nat :=
  (delete_files_or_dirs fs to_delete, st, [])

/-- Claim C9 evaluated at the failing input: tearing down while two build
requests are outstanding deletes the temp paths but leaves both
`waiting_circuits` entries in place and errbacks no deferred — the two
futures stay pending forever, where the claim requires both to be cancelled
with a "session closed" error and their entries removed. -/
theorem session_teardown_leaves_futures_pending :
    (session_teardown ⟨[2], [1]⟩ [1, 2]
        ⟨[(5, 50), (6, 60)], [], [], []⟩).2.1.waiting = [(5, 50), (6, 60)] ∧
      (session_teardown ⟨[2], [1]⟩ [1, 2]
        ⟨[(5, 50), (6, 60)], [], [], []⟩).2.2 = [] ∧
      (session_teardown ⟨[2], [1]⟩ [1, 2]
        ⟨[(5, 50), (6, 60)], [], [], []⟩).1 = ⟨[], []⟩ := by
  decide

/-- Atomic actions of one `singleton_semaphore` call (onion.py lines
105-135): allocate the function-local `DeferredSemaphore(1)` named
`only_once`, then acquire it and run the caller's initialization under it.
Each call is tagged with its caller id. -/
inductive SemAction
  | newSem (callId : Nat)
  | acquireRun (callId : Nat)
  deriving DecidableEq, Repr

/-- Global state shared by concurrent `singleton_semaphore` calls: the
allocated semaphores (caller id, available tokens) — one per call, because
`only_once` is a local variable — and the initializations that have run, in
order. -/
structure SemWorld where
  sems : List (Nat × Nat)
  initRuns : List Nat
  deriving DecidableEq, Repr

/-- Tokens currently available on caller `i`'s semaphore. -/
def lookupTokens (i : Nat) : List (Nat × Nat) → Option Nat
  | [] => none
  | (j, t) :: rest => if j = i then some t else lookupTokens i rest

/-- Set the token count of caller `i`'s semaphore. -/
def setTokens (i v : Nat) : List (Nat × Nat) → List (Nat × Nat)
  | [] => []
  | (j, t) :: rest =>
    if j = i then (j, v) :: rest else (j, t) :: setTokens i v rest

/-- One scheduler step: `newSem i` allocates caller `i`'s fresh
`DeferredSemaphore(1)`; `acquireRun i` acquires it when a token is free and
runs caller `i`'s initialization (when no token is free the acquire waits,
modelled as a stutter). -/
def semStep (w : SemWorld) : SemAction → SemWorld
  | .newSem i => { w with sems := w.sems ++ [(i, 1)] }
  | .acquireRun i =>
    match lookupTokens i w.sems with
    | some (t + 1) =>
      { sems := setTokens i t w.sems, initRuns := w.initRuns ++ [i] }
    | _ => w

/-- Run a schedule of actions from a world. -/
def runActs (w : SemWorld) (l : List SemAction) : SemWorld :=
  l.foldl semStep w

/-- The action sequence of one `singleton_semaphore` call by caller `i`. -/
def semCall (i : Nat) : List SemAction :=
  [.newSem i, .acquireRun i]

/-- `Interleave l r t`: `t` is an interleaving of the two action sequences
`l` and `r` that preserves each sequence's internal order — every schedule
the single-threaded reactor could produce for two concurrent calls. -/
inductive Interleave :
    List SemAction → List SemAction → List SemAction → Prop
  | nil : Interleave [] [] []
  | left {a l r t} : Interleave l r t → Interleave (a :: l) r (a :: t)
  | right {a l r t} : Interleave l r t → Interleave l (a :: r) (a :: t)

/-- Claim C5 at the failing input: under every interleaving of two
concurrent `singleton_semaphore` calls, both initializations run — the
guard, being a fresh function-local `DeferredSemaphore(1)` per call, shares
no state between callers, so it never collapses the second call onto the
first run. -/
theorem singleton_semaphore_two_inits
    (t : List SemAction) (h : Interleave (semCall 1) (semCall 2) t) :
    (runActs ⟨[], []⟩ t).initRuns.length = 2 := by
  cases h with
  | left h1 =>
    cases h1 with
    | left h2 =>
      cases h2 with
      | right h3 =>
        cases h3 with
        | right h4 => cases h4; decide
    | right h2 =>
      cases h2 with
      | left h3 =>
        cases h3 with
        | right h4 => cases h4; decide
      | right h3 =>
        cases h3 with
        | left h4 => cases h4; decide
  | right h1 =>
    cases h1 with
    | left h2 =>
      cases h2 with
      | left h3 =>
        cases h3 with
        | right h4 => cases h4; decide
      | right h3 =>
        cases h3 with
        | left h4 => cases h4; decide
    | right h2 =>
      cases h2 with
      | left h3 =>
        cases h3 with
        | left h4 => cases h4; decide

/-- Claim C5 witness at the sequential schedule: call 1 completes, then
call 2 runs — and still two initializations occur. -/
theorem singleton_semaphore_two_inits_witness :
    Interleave (semCall 1) (semCall 2)
        [.newSem 1, .acquireRun 1, .newSem 2, .acquireRun 2] ∧
      (runActs ⟨[], []⟩
          [.newSem 1, .acquireRun 1, .newSem 2, .acquireRun 2]).initRuns.length =
        2 :=
  have hi : Interleave (semCall 1) (semCall 2)
      [.newSem 1, .acquireRun 1, .newSem 2, .acquireRun 2] :=
    .left (.left (.right (.right .nil)))
  ⟨hi, singleton_semaphore_two_inits _ hi⟩

end Onion
